import Mathlib

/-!
Verification of the article enrichment and cycle-orchestration pipeline of the
Real-time Financial News & Sentiment Analysis Agent.

The Python source is shallowly embedded: dictionaries whose keys are fixed by
the fetcher become structures with `Option String` fields (`none` models both
a JSON `null` value and an absent upstream field, exactly what `dict.get`
returns), fallible code returns `Except String`, and the three LLM calls are
parametrised by the backend's outcome.  Each definition is translated from the
corresponding function in `src/`, keeping its name where Lean allows.
-/

/-- Python truthiness of an `Option String` value: `None` and `""` are falsy,
every other string is truthy (embeds `if not title` checks). -/
def pyTruthy : Option String → Bool
  | none => false
  | some s => !(s == "")

/-- ASCII whitespace, the characters `str.strip()` removes from the strings
this development handles. -/
def isWs (c : Char) : Bool :=
  c == ' ' || c == '\t' || c == '\n' || c == '\r'

/-- Python `str.strip()` with no argument: remove leading and trailing
whitespace (ASCII behaviour suffices for the inputs of this development). -/
def pyStrip (s : String) : String :=
  String.mk (((s.data.dropWhile isWs).reverse.dropWhile isWs).reverse)

/-- Python `str.capitalize()`: first character upper-cased, the rest
lower-cased (ASCII behaviour suffices for the three sentiment labels). -/
def pyCapitalize (s : String) : String :=
  match s.data with
  | [] => ""
  | c :: cs => String.mk (c.toUpper :: cs.map Char.toLower)

/-- Equality of `Except` results is decidable when both components are, so
concrete runs of the embedded functions can be checked by `decide`. -/
instance {ε α : Type} [DecidableEq ε] [DecidableEq α] : DecidableEq (Except ε α) :=
  fun x y =>
    match x, y with
    | .ok a, .ok b =>
      if h : a = b then .isTrue (by rw [h]) else .isFalse (by simp [h])
    | .error e, .error f =>
      if h : e = f then .isTrue (by rw [h]) else .isFalse (by simp [h])
    | .ok _, .error _ => .isFalse (by simp)
    | .error _, .ok _ => .isFalse (by simp)

/-- A raw article as built by `fetch_news_for_symbol` in `news_fetcher.py`:
the fetcher always inserts these six keys, each holding a string or `None`. -/
structure RawArticle where
  symbol : Option String
  title : Option String
  description : Option String
  url : Option String
  published_at : Option String
  source : Option String
deriving DecidableEq, Repr

/-- The content gate of `filter_articles` (`data_processor.py` line 22):
`not title or not description` drops the article. -/
def contentOk (a : RawArticle) : Bool :=
  pyTruthy a.title && pyTruthy a.description

/-- `url in seen_urls` (`data_processor.py` line 27): `None` is never in the
set, and only truthy urls are ever added, so membership is string membership. -/
def urlSeen (u : Option String) (seen : List String) : Bool :=
  match u with
  | none => false
  | some s => seen.contains s

/-- `if url: seen_urls.add(url)` (`data_processor.py` lines 30-31): only a
truthy url is recorded. -/
def addUrl (u : Option String) (seen : List String) : List String :=
  match u with
  | none => seen
  | some s => if s == "" then seen else s :: seen

/-- The message of the `TypeError` raised by `title[:50]` when `title` is
`None` (`data_processor.py` line 23: the f-string argument of `logger.debug`
is evaluated eagerly, before any log-level check). -/
def noneSliceError : String := "TypeError: NoneType object is not subscriptable"

/-- The loop body of `filter_articles`, with the mutable `seen_urls` set made
explicit.  When the content gate fires the debug log slices `title`, which
raises when `title` is `None`/absent; this is modelled by `Except.error`. -/
def filterGo : List RawArticle → List String → Except String (List RawArticle)
  | [], _ => .ok []
  | a :: rest, seen =>
    if contentOk a then
      if urlSeen a.url seen then
        filterGo rest seen
      else
        match filterGo rest (addUrl a.url seen) with
        | .ok tl => .ok (a :: tl)
        | .error e => .error e
    else
      match a.title with
      | none => .error noneSliceError
      | some _ => filterGo rest seen

/-- `filter_articles` from `src/data_processor.py`: content gate, then URL
dedup with first-retained-occurrence wins, input order preserved. -/
def filter_articles (articles : List RawArticle) : Except String (List RawArticle) :=
  filterGo articles []

/-- Outcome of one round trip to the LLM backend, as seen by
`LLMService.generate_response` in `llm_service.py`: a text answer, an
`OutputParserException`, any other exception (transport/auth/rate limit), or
an uninitialised client. -/
inductive BackendOutcome where
  | success (text : String)
  | parseError (msg : String)
  | transportError (msg : String)
  | noClient
deriving DecidableEq, Repr

/-- `LLMService.generate_response` (`llm_service.py` lines 64-90): returns the
response text on success and `None` on every failure (missing client,
`OutputParserException`, any other exception); it never raises. -/
def generate_response : BackendOutcome → Option String
  | .success t => some t
  | .parseError _ => none
  | .transportError _ => none
  | .noClient => none

/-- `summarize_text` (`llm_service.py` lines 103-122): passes the client's
answer through unchanged (`return summary`, even when empty). -/
def summarize_text (b : BackendOutcome) : Option String :=
  generate_response b

/-- The three accepted sentiment labels. -/
def sentimentLabels : List String := ["Positive", "Negative", "Neutral"]

/-- `analyze_sentiment` (`llm_service.py` lines 125-155): on a truthy answer,
normalise with `strip().capitalize()`; keep it only if it is exactly one of
the three labels, otherwise return `None`; on any failed call return `None`. -/
def analyze_sentiment (b : BackendOutcome) : Option String :=
  match generate_response b with
  | none => none
  | some raw =>
    if raw == "" then none
    else
      let s := pyCapitalize (pyStrip raw)
      if sentimentLabels.contains s then some s else none

/-- `extract_topic` (`llm_service.py` lines 158-181): on a truthy answer
return it trimmed, otherwise `None`. -/
def extract_topic (b : BackendOutcome) : Option String :=
  match generate_response b with
  | none => none
  | some t => if t == "" then none else some (pyStrip t)

/-- The enriched article returned by `process_single_article` in `main.py`.
The three enrichment fields and `processing_error` use two `Option` layers:
the outer layer is dictionary-key presence (the defensive empty-text path
returns the article without the keys), the inner layer is the stored value
(`None` vs a string). -/
structure EnrichedArticle where
  raw : RawArticle
  summary : Option (Option String)
  sentiment : Option (Option String)
  topic : Option (Option String)
  processing_error : Option (Option String)
deriving DecidableEq, Repr

/-- `f"{article.get('title', '')}\n{article.get('description', '')}"`
(`main.py` line 45). -/
def textToProcess (a : RawArticle) : String :=
  (a.title.getD "") ++ "\n" ++ (a.description.getD "")

/-- The merge policy of `main.py` lines 66-68: an `asyncio.gather` slot that
returned a value keeps that value, a slot that captured an exception becomes
the error-marker string `f"Error: {exc}"`. -/
def mergeField : Except String (Option String) → Option String
  | .ok v => v
  | .error e => some ("Error: " ++ e)

/-- `process_single_article` (`main.py` lines 42-80).  The outcome of each of
the three awaited tasks is a parameter: `.ok v` models the coroutine
returning `v` (an `Optional[str]`), `.error e` models it raising, which
`gather(..., return_exceptions=True)` hands back as an exception object.
`internal` models an unexpected exception inside the `try` block, which the
`except` clause records under `processing_error`. -/
def process_single_article (a : RawArticle) (internal : Option String)
    (rSummary rSentiment rTopic : Except String (Option String)) : EnrichedArticle :=
  if pyStrip (textToProcess a) == "" then
    { raw := a, summary := none, sentiment := none, topic := none,
      processing_error := none }
  else
    match internal with
    | some e =>
      { raw := a, summary := none, sentiment := none, topic := none,
        processing_error := some (some e) }
    | none =>
      { raw := a,
        summary := some (mergeField rSummary),
        sentiment := some (mergeField rSentiment),
        topic := some (mergeField rTopic),
        processing_error := none }

/-- The key/value pairs of the dictionary that `save_processed_article`
(`main.py` lines 157-170) serialises as one JSON line: the six fetcher keys
are always present (value possibly `null`), the enrichment keys only when the
corresponding assignment ran.  Python dictionaries keep insertion order. -/
def articleRecord (e : EnrichedArticle) : List (String × Option String) :=
  [("symbol", e.raw.symbol), ("title", e.raw.title),
   ("description", e.raw.description), ("url", e.raw.url),
   ("published_at", e.raw.published_at), ("source", e.raw.source)]
  ++ (match e.summary with | some v => [("summary", v)] | none => [])
  ++ (match e.sentiment with | some v => [("sentiment", v)] | none => [])
  ++ (match e.topic with | some v => [("topic", v)] | none => [])
  ++ (match e.processing_error with | some v => [("processing_error", v)] | none => [])

/-- The keys of the persisted record. -/
def recordKeys (e : EnrichedArticle) : List String :=
  (articleRecord e).map Prod.fst

/-- The nine keys the spec requires on every persisted record. -/
def requiredKeys : List String :=
  ["symbol", "title", "description", "url", "published_at", "source",
   "summary", "sentiment", "topic"]

/-- The value `article.get("sentiment")` used by the notification trigger:
`None` both when the key is absent and when it holds `None`. -/
def sentimentValue (e : EnrichedArticle) : Option String :=
  e.sentiment.join

/-- `article.get(key, default)` for an enrichment field: the default applies
only when the key is absent, not when it holds `None`. -/
def pyGetD (v : Option (Option String)) (d : String) : Option String :=
  match v with
  | none => some d
  | some x => x

/-- The Slack message assembled by `trigger_alert_if_needed`
(`main.py` lines 88-151): the fields it reads off the article and the colour
picked from the sentiment polarity. -/
structure SlackAlert where
  sentimentLabel : String
  symbol : Option String
  title : Option String
  summary : Option String
  topic : Option String
  url : Option String
  source : Option String
  published_at : Option String
  color : String
deriving DecidableEq, Repr

/-- `trigger_alert_if_needed` (`main.py` lines 82-155): delivery happens iff
`sentiment and sentiment in ["Positive", "Negative"]`; the `elif` branch for
`Error:`-marked sentiment only logs.  The returned `SlackAlert` stands for
the one `send_slack_alert` invocation; `none` means no delivery. -/
def trigger_alert_if_needed (e : EnrichedArticle) : Option SlackAlert :=
  match sentimentValue e with
  | none => none
  | some s =>
    if !(s == "") && (s == "Positive" || s == "Negative") then
      some { sentimentLabel := s,
             symbol := e.raw.symbol,
             title := e.raw.title,
             summary := pyGetD e.summary "N/A",
             topic := pyGetD e.topic "N/A",
             url := e.raw.url,
             source := e.raw.source,
             published_at := e.raw.published_at,
             color := if s == "Positive" then "#36a64f" else "#ff0000" }
    else none

/-- The delivery invocations produced by running the trigger over a list of
enriched articles (`main.py` lines 244-257 gather one `trigger_alert_if_needed`
task per article). -/
def alertsFired (articles : List EnrichedArticle) : List SlackAlert :=
  articles.filterMap trigger_alert_if_needed

/-- `sleep_time = max(0, FETCH_INTERVAL_SECONDS - elapsed_time)`
(`main.py` line 269).  The float arithmetic is modelled over `ℚ`; the
concrete values of the claim (900, 130.5, 769.5, 950, 0) are all exactly
representable in binary floating point, so the subtraction is exact there. -/
def computeSleep (interval elapsed : ℚ) : ℚ :=
  max 0 (interval - elapsed)

/-- `FETCH_INTERVAL_SECONDS = 15 * 60` (`main.py` line 39). -/
def FETCH_INTERVAL_SECONDS : ℚ := 15 * 60

/-- The result-collection loop of `fetch_news_for_watchlist`
(`news_fetcher.py` lines 103-113): `asyncio.gather(..., return_exceptions=True)`
yields one slot per watchlist symbol, a list of articles or an exception;
lists are concatenated in watchlist order, exceptions are logged and
contribute nothing. -/
def fetch_news_for_watchlist (results : List (Except String (List RawArticle))) :
    List RawArticle :=
  results.foldl
    (fun acc r => match r with | .ok l => acc ++ l | .error _ => acc) []

/-- What one iteration of `main_agent_loop` (`main.py` lines 215-271)
produces: the filtered articles that enter enrichment and the sleep length. -/
structure CycleResult where
  processed : List RawArticle
  sleep : ℚ
deriving Repr

/-- One cycle of `main_agent_loop`: fetch (already-gathered results), filter,
and compute the sleep.  Any exception escaping a stage is caught by the
cycle-boundary `except` (`main.py` lines 263-265), turning the cycle into an
empty one; the loop always reaches the sleep computation. -/
def runCycle (fetchResults : List (Except String (List RawArticle)))
    (interval elapsed : ℚ) : CycleResult :=
  let raw := fetch_news_for_watchlist fetchResults
  let filtered :=
    match filter_articles raw with
    | .ok l => l
    | .error _ => []
  { processed := filtered, sleep := computeSleep interval elapsed }

/-! ## Fixtures: concrete articles used by the counterexamples and witnesses -/

/-- The repository's own test fixture `ARTICLE_MISSING_TITLE` from
`tests/test_data_processor.py` (`title` is `None`). -/
def articleMissingTitle : RawArticle :=
  { symbol := some "GOOG", title := none, description := some "Search update.",
    url := some "http://g.com/1", published_at := none, source := none }

/-- An article whose `title` key is absent from the dictionary (so
`article.get("title")` is `None`) and whose description is also missing. -/
def articleAbsentTitle : RawArticle :=
  { symbol := none, title := none, description := some "Details inside.",
    url := none, published_at := none, source := none }

/-- First occurrence of url `u`: fails the content gate (empty title). -/
def dupFirst : RawArticle :=
  { symbol := some "AMZN", title := some "", description := some "Prime Day dates.",
    url := some "http://a.com/1", published_at := none, source := none }

/-- Second occurrence of url `u`: passes the content gate. -/
def dupSecond : RawArticle :=
  { symbol := some "AAPL", title := some "Apple Event",
    description := some "New iPhones announced.",
    url := some "http://a.com/1", published_at := none, source := none }

/-- A whitespace-only article: truthy title and description (so it passes the
filter) whose combined text blob strips to the empty string. -/
def whitespaceArticle : RawArticle :=
  { symbol := some "AAPL", title := some " ", description := some " ",
    url := some "http://a.com/ws", published_at := some "2024-05-01T00:00:00Z",
    source := some "Example" }

/-! ## C2 / C3: the content gate crashes on a null or absent title -/

/-- C2.  The claim says `filter_articles` excludes every item whose `title`
is null or absent.  On the repository's own test fixture
`ARTICLE_MISSING_TITLE` the function instead raises: the content gate takes
the drop branch, and the debug f-string evaluates `title[:50]` on `None`,
a `TypeError`, before `logger.debug` can ignore it. -/
theorem content_gate_crashes_on_null_title :
    filter_articles [articleMissingTitle] = .error noneSliceError := by
  decide

/-- C3.  The claim says `filter_articles` is total and lets no exception
escape.  On a record with an absent `title` key the embedded function
returns the `TypeError` outcome instead of a list. -/
theorem filter_articles_raises_on_missing_title :
    filter_articles [articleAbsentTitle] = .error noneSliceError ∧
    (filter_articles [articleAbsentTitle]).isOk = false := by
  decide

/-! ## C7: sleep arithmetic -/

/-- C7.  At the end of every cycle the sleep is `max 0 (interval − elapsed)`:
it is `769.5` for interval `900` and elapsed `130.5`, exactly `0` whenever the
cycle overran the interval, and never negative; the interval constant is
`15 * 60 = 900` seconds. -/
theorem sleep_time_clamped (i e : ℚ) (h : i ≤ e) :
    computeSleep i e = 0 ∧
    computeSleep 900 130.5 = 769.5 ∧
    (∀ a b : ℚ, 0 ≤ computeSleep a b) ∧
    FETCH_INTERVAL_SECONDS = 900 := by
  refine ⟨?_, by norm_num [computeSleep], fun a b => le_max_left 0 _,
    by norm_num [FETCH_INTERVAL_SECONDS]⟩
  simp only [computeSleep]
  exact max_eq_left (sub_nonpos.mpr h)

/-- Witness for C7 at the overrun case of the spec: interval `900`, elapsed
`950`. -/
theorem sleep_time_clamped_applied :
    computeSleep 900 950 = 0 ∧
    computeSleep 900 130.5 = 769.5 ∧
    (∀ a b : ℚ, 0 ≤ computeSleep a b) ∧
    FETCH_INTERVAL_SECONDS = 900 :=
  sleep_time_clamped 900 950 (by norm_num)

/-! ## C4: the notification trigger fires iff sentiment is Positive/Negative -/

/-- Helper: the trigger produces a delivery exactly when the article's
effective sentiment value is `"Positive"` or `"Negative"`. -/
theorem trigger_isSome_iff (e : EnrichedArticle) :
    (trigger_alert_if_needed e).isSome = true ↔
      sentimentValue e = some "Positive" ∨ sentimentValue e = some "Negative" := by
  cases h : sentimentValue e with
  | none => simp [trigger_alert_if_needed, h]
  | some s =>
    simp only [trigger_alert_if_needed, h]
    by_cases hp : s = "Positive"
    · subst hp; simp
    · by_cases hn : s = "Negative"
      · subst hn; simp
      · simp [hp, hn]

/-- Helper: counting deliveries over a list of enriched articles. -/
theorem alertsFired_length (l : List EnrichedArticle) :
    (alertsFired l).length =
      l.countP (fun e =>
        sentimentValue e == some "Positive" || sentimentValue e == some "Negative") := by
  induction l with
  | nil => simp [alertsFired]
  | cons a rest ih =>
    simp only [alertsFired, List.filterMap_cons, List.countP_cons] at *
    cases ha : trigger_alert_if_needed a with
    | none =>
      have hno : ¬ (sentimentValue a = some "Positive" ∨ sentimentValue a = some "Negative") := by
        intro hor
        have h2 := (trigger_isSome_iff a).mpr hor
        rw [ha] at h2
        simp at h2
      push_neg at hno
      simp [ha, ih, hno.1, hno.2]
    | some alert =>
      have hyes : sentimentValue a = some "Positive" ∨ sentimentValue a = some "Negative" :=
        (trigger_isSome_iff a).mp (by rw [ha]; rfl)
      rcases hyes with h1 | h1 <;> simp [ha, ih, h1]

/-- C4: `trigger_alert_if_needed` invokes the Slack delivery iff the
article's sentiment is exactly `"Positive"` or `"Negative"`; it stays silent
for `"Neutral"`, for an absent or `None` sentiment and for an `Error:`-marked
sentiment, and a batch of articles produces exactly as many deliveries as it
has articles with sentiment in {Positive, Negative}. -/
theorem alert_delivery_iff_positive_or_negative :
    (∀ e : EnrichedArticle,
      (trigger_alert_if_needed e).isSome = true ↔
        sentimentValue e = some "Positive" ∨ sentimentValue e = some "Negative") ∧
    (∀ e : EnrichedArticle, sentimentValue e = some "Neutral" →
      trigger_alert_if_needed e = none) ∧
    (∀ e : EnrichedArticle, sentimentValue e = none →
      trigger_alert_if_needed e = none) ∧
    (∀ (e : EnrichedArticle) (m : String),
      sentimentValue e = some ("Error: " ++ m) → trigger_alert_if_needed e = none) ∧
    (∀ l : List EnrichedArticle,
      (alertsFired l).length =
        l.countP (fun e =>
          sentimentValue e == some "Positive" || sentimentValue e == some "Negative")) := by
  refine ⟨trigger_isSome_iff, fun e h => ?_, fun e h => ?_, fun e m h => ?_,
    alertsFired_length⟩
  · simp [trigger_alert_if_needed, h]
  · simp [trigger_alert_if_needed, h]
  · have h1 : ("Error: " ++ m) ≠ "Positive" := by
      intro hc
      have hd := congrArg String.data hc
      rw [String.data_append] at hd
      simp at hd
    have h2 : ("Error: " ++ m) ≠ "Negative" := by
      intro hc
      have hd := congrArg String.data hc
      rw [String.data_append] at hd
      simp at hd
    simp [trigger_alert_if_needed, h, h1, h2]

/-! ## C5: uninterpretable sentiment is absent, but so is a failed call -/

/-- C5 counterexample.  The backend answering `"hold"` (uninterpretable) and
the backend failing with a transport error produce the same observable
result, `none`: the caller cannot distinguish the two outcomes. -/
theorem sentiment_uninterpretable_equals_failure :
    pyCapitalize (pyStrip "hold") = "Hold" ∧
    sentimentLabels.contains "Hold" = false ∧
    analyze_sentiment (.success "hold") = none ∧
    analyze_sentiment (.transportError "Connection timeout") = none ∧
    analyze_sentiment (.parseError "bad output") = none ∧
    analyze_sentiment (.success "hold") = analyze_sentiment (.transportError "Connection timeout") := by
  decide

/-- C5 amended: `analyze_sentiment` normalises the backend's raw text with
`strip().capitalize()` and returns it only when it is exactly one of the
three labels; an uninterpretable answer yields `none` (no exception, no error
marker) — but a failed backend call (transport/auth/parse error or missing
client) yields the identical `none`, so the two outcomes are not
distinguishable by the caller. -/
theorem sentiment_normalisation_and_absent_outcomes (t m : String)
    (h : sentimentLabels.contains (pyCapitalize (pyStrip t)) = false) :
    analyze_sentiment (.success t) = none ∧
    analyze_sentiment (.transportError m) = none ∧
    analyze_sentiment (.parseError m) = none ∧
    analyze_sentiment .noClient = none ∧
    (∀ u s, analyze_sentiment (.success u) = some s →
      s = pyCapitalize (pyStrip u) ∧ s ∈ sentimentLabels) := by
  refine ⟨?_, rfl, rfl, rfl, fun u s hu => ?_⟩
  · by_cases ht : t = ""
    · subst ht; rfl
    · simp only [analyze_sentiment, generate_response]
      rw [if_neg (by simpa using ht), h]
      simp
  · by_cases hu0 : u = ""
    · subst hu0; simp [analyze_sentiment, generate_response] at hu
    · simp only [analyze_sentiment, generate_response] at hu
      rw [if_neg (by simpa using hu0)] at hu
      by_cases hc : sentimentLabels.contains (pyCapitalize (pyStrip u))
      · rw [if_pos hc] at hu
        cases hu
        exact ⟨rfl, by simpa using hc⟩
      · rw [if_neg hc] at hu
        cases hu

/-- Witness for C5 at the uninterpretable answer `"hold"`. -/
theorem sentiment_normalisation_and_absent_outcomes_applied :
    analyze_sentiment (.success "hold") = none ∧
    analyze_sentiment (.transportError "timeout") = none ∧
    analyze_sentiment (.parseError "timeout") = none ∧
    analyze_sentiment .noClient = none ∧
    (∀ u s, analyze_sentiment (.success u) = some s →
      s = pyCapitalize (pyStrip u) ∧ s ∈ sentimentLabels) :=
  sentiment_normalisation_and_absent_outcomes "hold" "timeout" (by decide)

/-! ## C6: partial-failure merge policy in process_single_article -/

/-- A valid article used to exercise the enrichment merge. -/
def teslaArticle : RawArticle :=
  { symbol := some "TSLA", title := some "Tesla Deliveries",
    description := some "Record quarterly deliveries.",
    url := some "http://t.com/1", published_at := some "2024-04-02T00:00:00Z",
    source := some "Example" }

/-- C6 counterexample.  The summarisation backend call fails with a transport
error; the client (`generate_response`) converts the failure to `None`, so
the awaited task returns `None` rather than raising, and the merge stores
`null` in `summary` — no error-marker string embedding the failure cause is
produced, while the other two fields carry their success values. -/
theorem transport_failure_field_is_null :
    summarize_text (.transportError "Read timed out") = none ∧
    (process_single_article teslaArticle none
        (.ok (summarize_text (.transportError "Read timed out")))
        (.ok (analyze_sentiment (.success "Neutral")))
        (.ok (extract_topic (.success "Earnings Report")))).summary = some none ∧
    (process_single_article teslaArticle none
        (.ok (summarize_text (.transportError "Read timed out")))
        (.ok (analyze_sentiment (.success "Neutral")))
        (.ok (extract_topic (.success "Earnings Report")))).sentiment
      = some (some "Neutral") ∧
    (process_single_article teslaArticle none
        (.ok (summarize_text (.transportError "Read timed out")))
        (.ok (analyze_sentiment (.success "Neutral")))
        (.ok (extract_topic (.success "Earnings Report")))).topic
      = some (some "Earnings Report") := by
  decide

/-- C6 amended: for an article with a non-empty text blob, when one of the
three awaited enrichment tasks fails while the other two succeed, the two
successful fields get their success values and all three keys are present.
The failed field is the error-marker string `"Error: <cause>"` when the task
failed by raising (captured by `gather(..., return_exceptions=True)`);
when the backend call failed inside the client, the task returns `None` and
the field is stored as `null` instead. -/
theorem partial_failure_merge_policy (a : RawArticle) (e v w : String)
    (h : pyStrip (textToProcess a) ≠ "") :
    ((process_single_article a none (.error e) (.ok (some v)) (.ok (some w))).summary
        = some (some ("Error: " ++ e)) ∧
      (process_single_article a none (.error e) (.ok (some v)) (.ok (some w))).sentiment
        = some (some v) ∧
      (process_single_article a none (.error e) (.ok (some v)) (.ok (some w))).topic
        = some (some w) ∧
      recordKeys (process_single_article a none (.error e) (.ok (some v)) (.ok (some w)))
        = requiredKeys) ∧
    ((process_single_article a none (.ok (some v)) (.error e) (.ok (some w))).sentiment
        = some (some ("Error: " ++ e)) ∧
      (process_single_article a none (.ok (some v)) (.error e) (.ok (some w))).summary
        = some (some v) ∧
      (process_single_article a none (.ok (some v)) (.error e) (.ok (some w))).topic
        = some (some w) ∧
      recordKeys (process_single_article a none (.ok (some v)) (.error e) (.ok (some w)))
        = requiredKeys) ∧
    ((process_single_article a none (.ok (some v)) (.ok (some w)) (.error e)).topic
        = some (some ("Error: " ++ e)) ∧
      (process_single_article a none (.ok (some v)) (.ok (some w)) (.error e)).summary
        = some (some v) ∧
      (process_single_article a none (.ok (some v)) (.ok (some w)) (.error e)).sentiment
        = some (some w) ∧
      recordKeys (process_single_article a none (.ok (some v)) (.ok (some w)) (.error e))
        = requiredKeys) ∧
    ((process_single_article a none (.ok none) (.ok (some v)) (.ok (some w))).summary
        = some none ∧
      (process_single_article a none (.ok none) (.ok (some v)) (.ok (some w))).sentiment
        = some (some v) ∧
      recordKeys (process_single_article a none (.ok none) (.ok (some v)) (.ok (some w)))
        = requiredKeys) := by
  have hb : (pyStrip (textToProcess a) == "") = false := by
    simpa using h
  simp [process_single_article, hb, mergeField, recordKeys, articleRecord, requiredKeys]

/-- Witness for C6 on a concrete article with non-empty text blob. -/
theorem partial_failure_merge_policy_applied :
    ((process_single_article teslaArticle none (.error "boom") (.ok (some "Neutral"))
        (.ok (some "Deliveries"))).summary = some (some ("Error: " ++ "boom")) ∧
      (process_single_article teslaArticle none (.error "boom") (.ok (some "Neutral"))
        (.ok (some "Deliveries"))).sentiment = some (some "Neutral") ∧
      (process_single_article teslaArticle none (.error "boom") (.ok (some "Neutral"))
        (.ok (some "Deliveries"))).topic = some (some "Deliveries") ∧
      recordKeys (process_single_article teslaArticle none (.error "boom")
        (.ok (some "Neutral")) (.ok (some "Deliveries"))) = requiredKeys) ∧
    ((process_single_article teslaArticle none (.ok (some "Neutral")) (.error "boom")
        (.ok (some "Deliveries"))).sentiment = some (some ("Error: " ++ "boom")) ∧
      (process_single_article teslaArticle none (.ok (some "Neutral")) (.error "boom")
        (.ok (some "Deliveries"))).summary = some (some "Neutral") ∧
      (process_single_article teslaArticle none (.ok (some "Neutral")) (.error "boom")
        (.ok (some "Deliveries"))).topic = some (some "Deliveries") ∧
      recordKeys (process_single_article teslaArticle none (.ok (some "Neutral"))
        (.error "boom") (.ok (some "Deliveries"))) = requiredKeys) ∧
    ((process_single_article teslaArticle none (.ok (some "Neutral")) (.ok (some "Deliveries"))
        (.error "boom")).topic = some (some ("Error: " ++ "boom")) ∧
      (process_single_article teslaArticle none (.ok (some "Neutral")) (.ok (some "Deliveries"))
        (.error "boom")).summary = some (some "Neutral") ∧
      (process_single_article teslaArticle none (.ok (some "Neutral")) (.ok (some "Deliveries"))
        (.error "boom")).sentiment = some (some "Deliveries") ∧
      recordKeys (process_single_article teslaArticle none (.ok (some "Neutral"))
        (.ok (some "Deliveries")) (.error "boom")) = requiredKeys) ∧
    ((process_single_article teslaArticle none (.ok none) (.ok (some "Neutral"))
        (.ok (some "Deliveries"))).summary = some none ∧
      (process_single_article teslaArticle none (.ok none) (.ok (some "Neutral"))
        (.ok (some "Deliveries"))).sentiment = some (some "Neutral") ∧
      recordKeys (process_single_article teslaArticle none (.ok none)
        (.ok (some "Neutral")) (.ok (some "Deliveries"))) = requiredKeys) :=
  partial_failure_merge_policy teslaArticle "boom" "Neutral" "Deliveries" (by decide)

/-! ## C8: persisted-record keys -/

/-- C8 counterexample.  A whitespace-only article passes the filter (its
title and description are truthy), but its combined text blob strips to the
empty string, so `process_single_article` takes the defensive path and
returns it unmodified: the persisted record has only the six fetcher keys —
`summary`, `sentiment` and `topic` are absent, not `null`. -/
theorem whitespace_article_record_missing_keys :
    filter_articles [whitespaceArticle] = .ok [whitespaceArticle] ∧
    recordKeys (process_single_article whitespaceArticle none
        (.ok (some "s")) (.ok (some "Neutral")) (.ok (some "Topic")))
      = ["symbol", "title", "description", "url", "published_at", "source"] ∧
    "summary" ∉ recordKeys (process_single_article whitespaceArticle none
        (.ok (some "s")) (.ok (some "Neutral")) (.ok (some "Topic"))) ∧
    "sentiment" ∉ recordKeys (process_single_article whitespaceArticle none
        (.ok (some "s")) (.ok (some "Neutral")) (.ok (some "Topic"))) ∧
    "topic" ∉ recordKeys (process_single_article whitespaceArticle none
        (.ok (some "s")) (.ok (some "Neutral")) (.ok (some "Topic"))) := by
  decide

/-- C8 amended: for every article that takes the normal enrichment path
(non-empty stripped text blob, no unexpected internal error) the persisted
record carries exactly the nine required keys, whatever the three call
outcomes were — fields that were `None` upstream are stored as `null` values
of those keys rather than being rejected.  On the defensive empty-blob path
the record instead carries only the six fetcher keys. -/
theorem record_has_nine_keys_on_normal_path (a : RawArticle)
    (r1 r2 r3 : Except String (Option String))
    (h : pyStrip (textToProcess a) ≠ "") :
    recordKeys (process_single_article a none r1 r2 r3) = requiredKeys ∧
    (articleRecord (process_single_article a none r1 r2 r3)).length = 9 := by
  have hb : (pyStrip (textToProcess a) == "") = false := by simpa using h
  simp [process_single_article, hb, recordKeys, articleRecord, requiredKeys]

/-- Witness for C8 on a concrete article, with `None`-valued fetch fields
serialised as `null` values under present keys. -/
theorem record_has_nine_keys_on_normal_path_applied :
    recordKeys (process_single_article articleMissingTitle none
        (.ok (some "s")) (.ok none) (.error "boom")) = requiredKeys ∧
    (articleRecord (process_single_article articleMissingTitle none
        (.ok (some "s")) (.ok none) (.error "boom"))).length = 9 :=
  record_has_nine_keys_on_normal_path articleMissingTitle
    (.ok (some "s")) (.ok none) (.error "boom") (by decide)

/-! ## C9: a per-symbol fetch failure is isolated -/

/-- Helper: the gather-collection loop concatenates exactly the successful
per-symbol lists, in order. -/
theorem fetch_collect_eq (results : List (Except String (List RawArticle))) :
    fetch_news_for_watchlist results =
      (results.filterMap
        (fun r => match r with | .ok l => some l | .error _ => none)).flatten := by
  suffices h : ∀ (acc : List RawArticle),
      results.foldl
        (fun acc r => match r with | .ok l => acc ++ l | .error _ => acc) acc =
      acc ++ (results.filterMap
        (fun r => match r with | .ok l => some l | .error _ => none)).flatten by
    simpa [fetch_news_for_watchlist] using h []
  induction results with
  | nil => intro acc; simp
  | cons r rest ih =>
    intro acc
    cases r with
    | ok l => simp [List.foldl_cons, ih, List.append_assoc]
    | error e => simp [List.foldl_cons, ih]

/-- C9: one symbol's fetch failure contributes zero articles while every
other symbol's articles are still collected, in order, and the cycle still
runs the filter on them and reaches the sleep computation instead of
crashing. -/
theorem fetch_failure_isolation (l1 l3 : List RawArticle) (er : String)
    (i el : ℚ) :
    fetch_news_for_watchlist [.ok l1, .error er, .ok l3] = l1 ++ l3 ∧
    (runCycle [.ok l1, .error er, .ok l3] i el).processed =
      (match filter_articles (l1 ++ l3) with
       | .ok f => f
       | .error _ => []) ∧
    (runCycle [.ok l1, .error er, .ok l3] i el).sleep = computeSleep i el ∧
    (∀ results : List (Except String (List RawArticle)),
      fetch_news_for_watchlist results =
        (results.filterMap
          (fun r => match r with | .ok l => some l | .error _ => none)).flatten) := by
  have hfetch : fetch_news_for_watchlist [.ok l1, .error er, .ok l3] = l1 ++ l3 := by
    simp [fetch_collect_eq]
  refine ⟨hfetch, ?_, rfl, fetch_collect_eq⟩
  simp [runCycle, hfetch]

/-! ## C10: enrichment never rewrites the original fields -/

/-- C10: whatever the call outcomes and error paths, the returned record's
six original fields are the input's values, and the only keys it can carry
beyond the six fetcher keys are `summary`, `sentiment`, `topic` and
`processing_error`. -/
theorem enrichment_adds_only_new_keys (a : RawArticle) (internal : Option String)
    (r1 r2 r3 : Except String (Option String)) :
    (process_single_article a internal r1 r2 r3).raw = a ∧
    (∀ k ∈ recordKeys (process_single_article a internal r1 r2 r3),
      k ∈ requiredKeys ∨ k = "processing_error") := by
  constructor
  · cases hb : (pyStrip (textToProcess a) == "") <;> cases internal <;>
      simp [process_single_article, hb]
  · intro k hk
    cases hb : (pyStrip (textToProcess a) == "") with
    | true =>
      simp [process_single_article, hb, recordKeys, articleRecord] at hk
      rcases hk with h | h | h | h | h | h <;> subst h <;> decide
    | false =>
      cases internal with
      | none =>
        simp [process_single_article, hb, recordKeys, articleRecord] at hk
        rcases hk with h | h | h | h | h | h | h | h | h <;> subst h <;> decide
      | some err =>
        simp [process_single_article, hb, recordKeys, articleRecord] at hk
        rcases hk with h | h | h | h | h | h | h <;> subst h <;> decide

/-! ## C1: URL deduplication -/

/-- Helper: a successful filtering pass returns a subsequence of its input,
so the relative order of retained articles is the input order. -/
theorem filterGo_sublist (l : List RawArticle) :
    ∀ (seen : List String) (out : List RawArticle),
      filterGo l seen = .ok out → out.Sublist l := by
  induction l with
  | nil =>
    intro seen out h
    simp only [filterGo] at h
    obtain rfl := Except.ok.inj h
    exact List.nil_sublist _
  | cons a rest ih =>
    intro seen out h
    simp only [filterGo] at h
    by_cases hc : contentOk a = true
    · rw [if_pos hc] at h
      by_cases hseen : urlSeen a.url seen = true
      · rw [if_pos hseen] at h
        exact (ih seen out h).cons a
      · rw [if_neg hseen] at h
        cases hrec : filterGo rest (addUrl a.url seen) with
        | error e => rw [hrec] at h; exact absurd h (by simp)
        | ok tl =>
          rw [hrec] at h
          obtain rfl := Except.ok.inj h
          exact (ih _ tl hrec).cons₂ a
    · rw [if_neg hc] at h
      cases ht : a.title with
      | none => rw [ht] at h; exact absurd h (by simp)
      | some t =>
        rw [ht] at h
        exact (ih seen out h).cons a

/-- Helper: for any non-empty url `u` not yet in the seen set, a successful
pass retains exactly the first content-passing occurrence of `u`; once `u`
is in the seen set, no occurrence of `u` survives. -/
theorem filterGo_url_unique (l : List RawArticle) :
    ∀ (seen : List String) (out : List RawArticle),
      filterGo l seen = .ok out → ∀ u : String, u ≠ "" →
        (u ∈ seen → out.filter (fun a => a.url == some u) = []) ∧
        (u ∉ seen → out.filter (fun a => a.url == some u) =
          (l.filter (fun a => contentOk a && (a.url == some u))).take 1) := by
  induction l with
  | nil =>
    intro seen out h u _
    simp only [filterGo] at h
    obtain rfl := Except.ok.inj h
    exact ⟨fun _ => rfl, fun _ => rfl⟩
  | cons a rest ih =>
    intro seen out h u hu
    simp only [filterGo] at h
    by_cases hc : contentOk a = true
    · rw [if_pos hc] at h
      by_cases hseen : urlSeen a.url seen = true
      · rw [if_pos hseen] at h
        refine ⟨fun hm => (ih seen out h u hu).1 hm, fun hm => ?_⟩
        have hne : (a.url == some u) = false := by
          cases hau : a.url with
          | none => rfl
          | some s =>
            rw [hau] at hseen
            simp only [urlSeen] at hseen
            have hs : s ∈ seen := by simpa using hseen
            have hsu : ¬ s = u := fun hsu => hm (hsu ▸ hs)
            simp [hsu]
        rw [(ih seen out h u hu).2 hm]
        simp [List.filter_cons, hne]
      · rw [if_neg hseen] at h
        cases hrec : filterGo rest (addUrl a.url seen) with
        | error e => rw [hrec] at h; exact absurd h (by simp)
        | ok tl =>
          rw [hrec] at h
          obtain rfl := Except.ok.inj h
          by_cases hau : a.url = some u
          · have hmem : u ∉ seen := by
              intro hm
              apply hseen
              rw [hau]
              simp only [urlSeen]
              simpa using hm
            have hseen2 : u ∈ addUrl a.url seen := by
              rw [hau]
              simp only [addUrl]
              rw [if_neg (by simpa using hu)]
              exact List.mem_cons_self u seen
            have htl : tl.filter (fun a => a.url == some u) = [] :=
              (ih _ tl hrec u hu).1 hseen2
            refine ⟨fun hm => absurd hm hmem, fun _ => ?_⟩
            simp [List.filter_cons, hau, hc, htl]
          · have hne : (a.url == some u) = false := by simp [hau]
            have haddmem : u ∈ addUrl a.url seen ↔ u ∈ seen := by
              cases hv : a.url with
              | none => simp [addUrl]
              | some s =>
                simp only [addUrl]
                by_cases hs0 : (s == "") = true
                · rw [if_pos hs0]
                · rw [if_neg hs0]
                  constructor
                  · intro hmm
                    rcases List.mem_cons.mp hmm with h1 | h1
                    · exact absurd (by rw [hv, ← h1]) hau
                    · exact h1
                  · exact fun hmm => List.mem_cons_of_mem _ hmm
            constructor
            · intro hm
              have htl := (ih _ tl hrec u hu).1 (haddmem.mpr hm)
              simp [List.filter_cons, hne, htl]
            · intro hm
              have htl := (ih _ tl hrec u hu).2 (fun hmm => hm (haddmem.mp hmm))
              simp [List.filter_cons, hne, hc, htl]
    · rw [if_neg hc] at h
      cases ht : a.title with
      | none => rw [ht] at h; exact absurd h (by simp)
      | some t =>
        rw [ht] at h
        have IH := ih seen out h u hu
        have hcf : contentOk a = false := by simpa using hc
        have hq : (contentOk a && (a.url == some u)) = false := by
          simp [hcf]
        refine ⟨IH.1, fun hm => ?_⟩
        rw [IH.2 hm]
        simp [List.filter_cons, hq]

/-- Helper: an article whose url is `None` or empty is never removed by the
URL dedup — it survives a successful pass exactly as often as it passes the
content gate, provided the seen set holds no empty url (it never does). -/
theorem filterGo_count_keeps_nonurl (l : List RawArticle) :
    ∀ (seen : List String) (out : List RawArticle),
      "" ∉ seen → filterGo l seen = .ok out →
      ∀ a : RawArticle, pyTruthy a.url = false →
        out.count a = (l.filter (fun x => contentOk x)).count a := by
  induction l with
  | nil =>
    intro seen out _ h a _
    simp only [filterGo] at h
    obtain rfl := Except.ok.inj h
    simp
  | cons b rest ih =>
    intro seen out hws h a ha
    simp only [filterGo] at h
    by_cases hc : contentOk b = true
    · rw [if_pos hc] at h
      by_cases hseen : urlSeen b.url seen = true
      · rw [if_pos hseen] at h
        have hba : ¬ b = a := by
          intro hba
          subst hba
          cases hbu : b.url with
          | none => rw [hbu] at hseen; simp [urlSeen] at hseen
          | some s =>
            rw [hbu] at hseen
            simp only [urlSeen] at hseen
            have hs : s ∈ seen := by simpa using hseen
            rw [hbu] at ha
            simp only [pyTruthy] at ha
            have hs0 : s = "" := by simpa using ha
            exact hws (hs0 ▸ hs)
        rw [ih seen out hws h a ha]
        simp [List.filter_cons, hc, List.count_cons, hba]
      · rw [if_neg hseen] at h
        cases hrec : filterGo rest (addUrl b.url seen) with
        | error e => rw [hrec] at h; exact absurd h (by simp)
        | ok tl =>
          rw [hrec] at h
          obtain rfl := Except.ok.inj h
          have hws2 : "" ∉ addUrl b.url seen := by
            cases hbu : b.url with
            | none => simpa [addUrl] using hws
            | some s =>
              simp only [addUrl]
              by_cases hs0 : (s == "") = true
              · rw [if_pos hs0]; exact hws
              · rw [if_neg hs0]
                intro hmm
                rcases List.mem_cons.mp hmm with h1 | h1
                · exact hs0 (by simp [h1.symm])
                · exact hws h1
          have hcount := ih _ tl hws2 hrec a ha
          simp [List.count_cons, List.filter_cons, hc, hcount]
    · rw [if_neg hc] at h
      cases ht : b.title with
      | none => rw [ht] at h; exact absurd h (by simp)
      | some t =>
        rw [ht] at h
        have hcf : contentOk b = false := by simpa using hc
        rw [ih seen out hws h a ha]
        simp [List.filter_cons, hcf]

/-- C1 counterexample.  Two items share the non-empty url
`http://a.com/1`; the first occurrence fails the content gate (empty title),
so the seen set never records the url and the output contains the *later*
occurrence, not the first — the claim's "exactly the first occurrence and
never a later one" fails. -/
theorem filter_dedup_counterexample :
    dupFirst.url = some "http://a.com/1" ∧
    dupSecond.url = some "http://a.com/1" ∧
    dupFirst ≠ dupSecond ∧
    filter_articles [dupFirst, dupSecond] = .ok [dupSecond] := by
  decide

/-- C1 amended: a successful `filter_articles` pass preserves input order
(the output is a subsequence), retains for each non-empty url exactly the
first occurrence that passes the content gate (so at most one item per
non-empty url, and no later occurrence once one is retained), and never
drops an item with empty or absent url for URL reasons — such items survive
exactly as often as they pass the content gate. -/
theorem filter_dedup_first_contentOk_occurrence (l out : List RawArticle)
    (h : filter_articles l = .ok out) :
    out.Sublist l ∧
    (∀ u : String, u ≠ "" →
      out.filter (fun a => a.url == some u) =
        (l.filter (fun a => contentOk a && (a.url == some u))).take 1) ∧
    (∀ a : RawArticle, pyTruthy a.url = false →
      out.count a = (l.filter (fun x => contentOk x)).count a) :=
  ⟨filterGo_sublist l [] out h,
   fun u hu => (filterGo_url_unique l [] out h u hu).2 (List.not_mem_nil u),
   fun a ha => filterGo_count_keeps_nonurl l [] out (List.not_mem_nil "") h a ha⟩

/-- Witness fixture: a valid article with url `http://w.com/1`. -/
def wFirst : RawArticle :=
  { symbol := some "AAPL", title := some "Apple Event",
    description := some "New iPhones announced.",
    url := some "http://w.com/1", published_at := none, source := none }

/-- Witness fixture: a later duplicate of `wFirst`'s url. -/
def wDup : RawArticle :=
  { symbol := some "AAPL", title := some "Apple Event Again",
    description := some "Repeated news.",
    url := some "http://w.com/1", published_at := none, source := none }

/-- Witness fixture: a valid article with no url. -/
def wNoUrl : RawArticle :=
  { symbol := some "META", title := some "Meta News",
    description := some "Social media updates.",
    url := none, published_at := none, source := none }

/-- Witness for C1 on a concrete pass with a duplicate url and a url-less
article: the duplicate is dropped, order is preserved, the url-less article
survives. -/
theorem filter_dedup_first_contentOk_occurrence_applied :
    ([wFirst, wNoUrl] : List RawArticle).Sublist [wFirst, wDup, wNoUrl] ∧
    (∀ u : String, u ≠ "" →
      ([wFirst, wNoUrl] : List RawArticle).filter (fun a => a.url == some u) =
        (([wFirst, wDup, wNoUrl] : List RawArticle).filter
          (fun a => contentOk a && (a.url == some u))).take 1) ∧
    (∀ a : RawArticle, pyTruthy a.url = false →
      ([wFirst, wNoUrl] : List RawArticle).count a =
        (([wFirst, wDup, wNoUrl] : List RawArticle).filter
          (fun x => contentOk x)).count a) :=
  filter_dedup_first_contentOk_occurrence [wFirst, wDup, wNoUrl] [wFirst, wNoUrl]
    (by decide)
